import Mathlib

/-!
Verification of the GMK EVO-X2 EC fan utilities.

The repository holds two independent Python scripts that read and write
embedded-controller (EC) registers through the debug file
/sys/kernel/debug/ec/ec0/io:

* gmk_fan.py — a menu-driven monitor/controller (snapshot reads, lookup
  tables mapping percentage buckets to register bytes, auto mode).
* ec_fans_monitor.py — a single-line live monitor with single-key PWM
  adjustment and restore-on-exit.

The EC register space is modelled as a byte-addressable state
(an assignment of a byte to every offset); the device file itself is
modelled by a `Device` that is either absent (every open raises) or
present with a register state.  Python integers are `Int`, raw bytes
are `Nat`.
-/

/-- The EC register space: each offset holds one byte.  The scripts only
ever touch offsets 0–255 (gmk_fan.py reads a 256-byte snapshot). -/
abbrev ECState := Nat → Nat

/-- The device file at EC_PATH: either every `open` fails (file missing,
permission denied, ...) or the register state is readable/writable. -/
inductive Device where
  | absent : Device
  | present : ECState → Device

/-- The effect on the register state of a successful `write_ec(offset, value)`
in gmk_fan.py: seek to `offset` and write the single byte
`bytes([value & 0xFF])`.  For a Python int, `value & 0xFF` is the
mathematical residue `value mod 256` (also for negative values), which is
`Int.emod` here. -/
def write_ec_reg (offset : Nat) (value : Int) (s : ECState) : ECState :=
  Function.update s offset ((value % 256).toNat)

/-- gmk_fan.py `write_ec` (lines 16–24): on any exception the handler is
bare `return False`, printing nothing; on success it returns True after
writing one masked byte.  Result: (returned flag, device after, printed
diagnostics). -/
def write_ec (offset : Nat) (value : Int) : Device → Bool × Device × List String
  | Device.absent => (false, Device.absent, [])
  | Device.present s => (true, Device.present (write_ec_reg offset value s), [])

/-- The 256-byte snapshot `f.read(256)` returned by a successful
`read_ec()` in gmk_fan.py. -/
def ec_snapshot (s : ECState) : List Nat :=
  (List.range 256).map s

/-- gmk_fan.py `read_ec` (lines 8–14): returns the 256-byte snapshot, or
None after printing a "Read failed" diagnostic when the open raises.
Result: (returned value, printed diagnostics). -/
def read_ec : Device → Option (List Nat) × List String
  | Device.absent => (none, ["Read failed"])
  | Device.present s => (some (ec_snapshot s), [])

/-- ec_fans_monitor.py `read_byte` (lines 16–19), success path: seek to
`offset` and unpack one byte. -/
def read_byte (offset : Nat) (s : ECState) : Nat := s offset

/-- ec_fans_monitor.py `read_word` (lines 21–24), success path: seek to
`offset` and unpack two bytes little-endian ("<H"). -/
def read_word (offset : Nat) (s : ECState) : Nat :=
  s offset + 256 * s (offset + 1)

/-- ec_fans_monitor.py `write_byte` (lines 26–29), success path: seek to
`offset` and write `struct.pack("B", value)`.  `struct.pack "B"` demands
0 ≤ value ≤ 255 (it raises otherwise), so the stored byte is
`value.toNat`; the monitor only ever passes clamped in-range values. -/
def write_byte_reg (offset : Nat) (value : Int) (s : ECState) : ECState :=
  Function.update s offset value.toNat

/-- ec_fans_monitor.py `read_byte` including the open of the device file:
the function body has no try/except, so a failed open propagates the
exception to the caller (modelled as `Except.error`). -/
def read_byte_dev (offset : Nat) : Device → Except String Nat
  | Device.absent => Except.error "FileNotFoundError"
  | Device.present s => Except.ok (read_byte offset s)

/-- ec_fans_monitor.py `read_word` including the open: no try/except, a
failed open propagates. -/
def read_word_dev (offset : Nat) : Device → Except String Nat
  | Device.absent => Except.error "FileNotFoundError"
  | Device.present s => Except.ok (read_word offset s)

/-- ec_fans_monitor.py `write_byte` including the open: no try/except, a
failed open propagates. -/
def write_byte_dev (offset : Nat) (value : Int) : Device → Except String Device
  | Device.absent => Except.error "FileNotFoundError"
  | Device.present s => Except.ok (Device.present (write_byte_reg offset value s))

/-- Python sequence indexing `data[i]`: a negative index counts from the
end; an index out of range raises IndexError (here: `none`). -/
def pyIndex (data : List Nat) (i : Int) : Option Nat :=
  let n : Int := data.length
  let j : Int := if i < 0 then i + n else i
  if 0 ≤ j ∧ j < n then data[j.toNat]? else none

/-- gmk_fan.py `get_byte` (lines 26–30): `data[offset]`, with a bare
`except` returning the sentinel 0. -/
def get_byte (data : List Nat) (offset : Int) : Nat :=
  (pyIndex data offset).getD 0

/-- Python slicing `data[start:stop]` (positive step): negative bounds
count from the end, then both bounds are clamped to [0, len]. -/
def pySlice (data : List Nat) (start stop : Int) : List Nat :=
  let n : Int := data.length
  let a : Int := if start < 0 then max (start + n) 0 else min start n
  let b : Int := if stop < 0 then max (stop + n) 0 else min stop n
  (data.drop a.toNat).take (b.toNat - a.toNat)

/-- gmk_fan.py `get_rpm_little_endian` (lines 32–37):
`struct.unpack("<H", data[offset:offset+2])[0]`, where unpack raises
unless the slice is exactly two bytes, and the bare `except` returns the
sentinel 0. -/
def get_rpm_little_endian (data : List Nat) (offset : Int) : Nat :=
  match pySlice data offset (offset + 2) with
  | [b0, b1] => b0 + 256 * b1
  | _ => 0

/-- gmk_fan.py `fan1_mapping` (line 101): percentage bucket → register
byte for Fan 1's speed register 0x24. -/
def fan1_mapping : List (Int × Nat) := [(20, 34), (40, 35), (60, 36), (80, 37), (100, 38)]

/-- Python `min(iterable, key=f)`: the first element attaining the
minimal key, scanning left to right (a later element replaces the
current best only when strictly smaller). -/
def pyMinBy (f : Int → Int) : List Int → Option Int
  | [] => none
  | x :: xs => some (xs.foldl (fun best y => if f y < f best then y else best) x)

/-- gmk_fan.py `set_fan1_percentage` (lines 96–107): pick the mapping key
closest to `percentage` by minimal absolute difference, then write 33 to
the enable register 0x23 and the mapped byte to the speed register 0x24. -/
def set_fan1_percentage (percentage : Int) (s : ECState) : ECState :=
  let closest := (pyMinBy (fun x => |x - percentage|) (fan1_mapping.map Prod.fst)).getD 0
  let value := (fan1_mapping.lookup closest).getD 0
  write_ec_reg 0x24 (value : Int) (write_ec_reg 0x23 33 s)

/-- gmk_fan.py lines 115–124: the register byte chosen for Fan 2 by the
threshold chain (18=20%, 19=40%, 20=60%, 21=80%, 22=100%). -/
def fan2_value (percentage : Int) : Nat :=
  if percentage ≤ 20 then 18
  else if percentage ≤ 40 then 19
  else if percentage ≤ 60 then 20
  else if percentage ≤ 80 then 21
  else 22

/-- gmk_fan.py `set_fan2_percentage` (lines 109–128): write 17 to the
enable register 0x21 and the threshold-chosen byte to the speed register
0x22. -/
def set_fan2_percentage (percentage : Int) (s : ECState) : ECState :=
  write_ec_reg 0x22 (fan2_value percentage : Int) (write_ec_reg 0x21 17 s)

/-- gmk_fan.py lines 136–145: the register byte chosen for the Sysfan by
the threshold chain (50=20%, 51=40%, 52=60%, 53=80%, 54=100%). -/
def sysfan_value (percentage : Int) : Nat :=
  if percentage ≤ 20 then 50
  else if percentage ≤ 40 then 51
  else if percentage ≤ 60 then 52
  else if percentage ≤ 80 then 53
  else 54

/-- gmk_fan.py `set_sysfan_percentage` (lines 130–149): write 49 to the
enable register 0x25 and the threshold-chosen byte to the speed register
0x26. -/
def set_sysfan_percentage (percentage : Int) (s : ECState) : ECState :=
  write_ec_reg 0x26 (sysfan_value percentage : Int) (write_ec_reg 0x25 49 s)

/-- gmk_fan.py `set_auto_mode` (lines 151–157): write 32 to 0x23, 16 to
0x21 and 48 to 0x25, disabling manual control of all three fans. -/
def set_auto_mode (s : ECState) : ECState :=
  write_ec_reg 0x25 48 (write_ec_reg 0x21 16 (write_ec_reg 0x23 32 s))

/-- The values gmk_fan.py `monitor_all_fans` (lines 39–94) derives from
one EC snapshot and prints. -/
structure FanStatus where
  fan1_rpm : Nat
  fan2_rpm : Nat
  sysfan_rpm : Nat
  fan1_pct : Nat
  fan2_pct : Nat
  sysfan_pct : Nat
  deriving DecidableEq

/-- gmk_fan.py lines 69–71: the per-channel speed-byte → percentage
display tables. -/
def fan1_pct_map : List (Nat × Nat) := [(34, 20), (35, 40), (36, 60), (37, 80), (38, 100)]

/-- gmk_fan.py line 70. -/
def fan2_pct_map : List (Nat × Nat) := [(22, 100), (21, 80), (20, 60), (19, 40), (18, 20)]

/-- gmk_fan.py line 71. -/
def sysfan_pct_map : List (Nat × Nat) := [(54, 100), (53, 80), (52, 60), (51, 40), (50, 20)]

/-- gmk_fan.py `monitor_all_fans` (lines 39–94), computation part: raw
RPM bytes at 0x37, 0x35, 0x28 scaled by 267, 267, 317; percentage looked
up from the speed bytes with default 0 (`dict.get(key, 0)`). -/
def monitor_all_fans (data : List Nat) : FanStatus :=
  { fan1_rpm := get_byte data 0x37 * 267
  , fan2_rpm := get_byte data 0x35 * 267
  , sysfan_rpm := get_byte data 0x28 * 317
  , fan1_pct := (fan1_pct_map.lookup (get_byte data 0x24)).getD 0
  , fan2_pct := (fan2_pct_map.lookup (get_byte data 0x22)).getD 0
  , sysfan_pct := (sysfan_pct_map.lookup (get_byte data 0x26)).getD 0 }

/-- ec_fans_monitor.py `RPM_OFFSETS` (line 11). -/
def RPM_OFFSETS : List Nat := [0x28, 0x34, 0x36]

/-- ec_fans_monitor.py `FAN_PWM_MAP` (lines 43–47): fan index → PWM
register offset (0 = SysFan, 1 = Fan1, 2 = Fan2). -/
def FAN_PWM_MAP : Nat → Nat
  | 0 => 0x07
  | 1 => 0x08
  | 2 => 0x09
  | _ => 0

/-- The in-process state of the ec_fans_monitor.py session:
`PWM_VALUES` (line 50), `selected_fan` (line 56) and the EC registers. -/
structure MonState where
  pwm : Nat → Int
  selected : Nat
  ec : ECState

/-- ec_fans_monitor.py lines 50 and 56: `PWM_VALUES` is initialised by
reading each mapped PWM register once at process start, and
`selected_fan = 0`. -/
def mon_init (s0 : ECState) : MonState :=
  { pwm := fun fan => (read_byte (FAN_PWM_MAP fan) s0 : Int)
  , selected := 0
  , ec := s0 }

/-- ec_fans_monitor.py line 72: `min(PWM_VALUES[selected_fan] + 10, 255)`. -/
def incPwm (v : Int) : Int := min (v + 10) 255

/-- ec_fans_monitor.py line 75: `max(PWM_VALUES[selected_fan] - 10, 0)`. -/
def decPwm (v : Int) : Int := max (v - 10) 0

/-- ec_fans_monitor.py keypress dispatch (lines 69–75): digits 1–3 select
a fan; w increments the selected fan's PWM value clamped to 255 and
writes it; s decrements clamped to 0 and writes it; any other key is
ignored. -/
def mon_step (c : Char) (st : MonState) : MonState :=
  if c = '1' ∨ c = '2' ∨ c = '3' then
    { st with selected := c.toNat - 49 }
  else if c = 'w' then
    let v := incPwm (st.pwm st.selected)
    { st with pwm := Function.update st.pwm st.selected v
            , ec := write_byte_reg (FAN_PWM_MAP st.selected) v st.ec }
  else if c = 's' then
    let v := decPwm (st.pwm st.selected)
    { st with pwm := Function.update st.pwm st.selected v
            , ec := write_byte_reg (FAN_PWM_MAP st.selected) v st.ec }
  else st

/-- A monitor session: the sequence of keypresses processed before the
interrupt, applied in order. -/
def mon_run (keys : List Char) (st : MonState) : MonState :=
  keys.foldl (fun st c => mon_step c st) st

/-- ec_fans_monitor.py KeyboardInterrupt handler (lines 77–80): for each
fan, write the current `PWM_VALUES[fan]` back to its PWM register. -/
def restore_pwm (st : MonState) : ECState :=
  write_byte_reg (FAN_PWM_MAP 2) (st.pwm 2)
    (write_byte_reg (FAN_PWM_MAP 1) (st.pwm 1)
      (write_byte_reg (FAN_PWM_MAP 0) (st.pwm 0) st.ec))

/-- ec_fans_monitor.py status line (lines 59–62): the three displayed RPM
numbers — `int(rpms[0]/22)` for SysFan (float division then truncation,
which on these 16-bit words equals floor division), and the raw words
`rpms[1]`, `rpms[2]` for Fan1 and Fan2. -/
def monitor_display (s : ECState) : Nat × Nat × Nat :=
  let rpms := RPM_OFFSETS.map (fun off => read_word off s)
  ((rpms.getD 0 0) / 22, rpms.getD 1 0, rpms.getD 2 0)

/-- What one iteration of the gmk_fan.py `main` loop (lines 174–210) does
besides register writes: whether it breaks out of the loop, whether the
`except Exception` handler printed an error message, and whether it
slept 2 seconds before resuming. -/
structure MenuOutcome where
  breaks : Bool
  printedError : Bool
  paused : Bool
  deriving DecidableEq

/-- The outcome of a menu action that completed without an exception. -/
def menuOk : MenuOutcome := { breaks := false, printedError := false, paused := false }

/-- The outcome of the `except Exception` branch (lines 208–210): print
the error and sleep 2 seconds, then resume the loop. -/
def menuError : MenuOutcome := { breaks := false, printedError := true, paused := true }

/-- gmk_fan.py `main` loop body (lines 174–210).  `choice` is the stripped
input line; `p1 p2 p3` are the results of the percentage prompts the
branch would issue in order, `none` standing for a non-numeric line on
which `int(...)` raises ValueError.  Branches 1–4 write through the
`set_*` functions only after every `int(...)` call they perform has
succeeded; a ValueError reaches the `except Exception` handler.  A
choice matching no branch falls through every `elif` and the loop simply
continues. -/
def menu_step (choice : String) (p1 p2 p3 : Option Int) (s : ECState) :
    MenuOutcome × ECState :=
  if choice = "q" then ({ breaks := true, printedError := false, paused := false }, s)
  else if choice = "1" then
    match p1 with
    | some pct => (menuOk, set_fan1_percentage pct s)
    | none => (menuError, s)
  else if choice = "2" then
    match p1 with
    | some pct => (menuOk, set_fan2_percentage pct s)
    | none => (menuError, s)
  else if choice = "3" then
    match p1 with
    | some pct => (menuOk, set_sysfan_percentage pct s)
    | none => (menuError, s)
  else if choice = "4" then
    match p1, p2, p3 with
    | some a, some b, some c =>
        (menuOk, set_sysfan_percentage c (set_fan2_percentage b (set_fan1_percentage a s)))
    | _, _, _ => (menuError, s)
  else if choice = "5" then (menuOk, set_auto_mode s)
  else if choice = "6" then (menuOk, s)
  else (menuOk, s)

/-- Modelled from the spec: the bucket "minimizing absolute difference
from p" over the table 20/40/60/80/100, "ties unspecified — resolved by
iteration order of the table" (section 4.2, section 8). -/
def specClosestBucket (p : Int) : Int :=
  (pyMinBy (fun b => |b - p|) [20, 40, 60, 80, 100]).getD 0

/-- Modelled from the spec wording of the amended claim: the smallest
bucket that is ≥ p, and 100 when p exceeds every bucket. -/
def specCeilBucket (p : Int) : Int :=
  ((([20, 40, 60, 80, 100] : List Int).filter (fun b => decide (p ≤ b))).head?).getD 100

/-- Fan 1's bucket → register byte, the `fan1_mapping` table itself. -/
def fan1_bucket_value (b : Int) : Nat := (fan1_mapping.lookup b).getD 0

/-- Fan 2's bucket → register byte, from the comment on gmk_fan.py lines
113–114 (22=100%, 21=80%, 20=60%, 19=40%, 18=20%) and the display table
`fan2_pct_map`. -/
def fan2_bucket_value (b : Int) : Nat :=
  if b = 20 then 18 else if b = 40 then 19 else if b = 60 then 20
  else if b = 80 then 21 else 22

/-- Sysfan's bucket → register byte, from the comment on gmk_fan.py lines
134–135 (54=100%, 53=80%, 52=60%, 51=40%, 50=20%) and the display table
`sysfan_pct_map`. -/
def sysfan_bucket_value (b : Int) : Nat :=
  if b = 20 then 50 else if b = 40 then 51 else if b = 60 then 52
  else if b = 80 then 53 else 54

/-- Reading offset `off < 256` out of the 256-byte snapshot with
`get_byte` returns the register byte at `off`. -/
lemma get_byte_snapshot (s : ECState) (off : Nat) (h : off < 256) :
    get_byte (ec_snapshot s) (off : Int) = s off := by
  have h0 : ¬ ((off : Int) < 0) := by omega
  have hlen : (ec_snapshot s).length = 256 := by simp [ec_snapshot]
  have hc : (0 : Int) ≤ (off : Int) ∧ (off : Int) < ((ec_snapshot s).length : Int) := by
    rw [hlen]; omega
  simp only [get_byte, pyIndex, if_neg h0, if_pos hc, Int.toNat_natCast]
  rw [ec_snapshot, List.getElem?_map, List.getElem?_range h]
  rfl

/-- C5: modelling the device file as a 256-byte state array, a write at
an offset in [0,255] of a byte value in [0,255] followed by a read at
the same offset returns the written value, and every other offset is
unchanged — both for gmk_fan.py's write_ec/read_ec/get_byte path and for
ec_fans_monitor.py's write_byte/read_byte path. -/
theorem C5_write_read_roundtrip (s : ECState) (off v off2 : Nat)
    (hoff : off ≤ 255) (hv : v ≤ 255) (hoff2 : off2 ≤ 255) (hne : off2 ≠ off) :
    get_byte (ec_snapshot (write_ec_reg off (v : Int) s)) (off : Int) = v ∧
    get_byte (ec_snapshot (write_ec_reg off (v : Int) s)) (off2 : Int) =
      get_byte (ec_snapshot s) (off2 : Int) ∧
    read_byte off (write_byte_reg off (v : Int) s) = v ∧
    read_byte off2 (write_byte_reg off (v : Int) s) = read_byte off2 s := by
  refine ⟨?_, ?_, ?_, ?_⟩
  · rw [get_byte_snapshot _ _ (by omega)]
    rw [write_ec_reg, Function.update_same]
    omega
  · rw [get_byte_snapshot _ _ (by omega), get_byte_snapshot _ _ (by omega)]
    rw [write_ec_reg, Function.update_noteq hne]
  · rw [read_byte, write_byte_reg, Function.update_same]
    omega
  · rw [read_byte, write_byte_reg, Function.update_noteq hne, read_byte]

/-- Witness for C5 at offset 0x24, value 38, other offset 0x23. -/
theorem C5_witness :
    get_byte (ec_snapshot (write_ec_reg 0x24 ((38 : Nat) : Int) (fun _ => 5))) ((0x24 : Nat) : Int) = 38 ∧
    get_byte (ec_snapshot (write_ec_reg 0x24 ((38 : Nat) : Int) (fun _ => 5))) ((0x23 : Nat) : Int) =
      get_byte (ec_snapshot (fun _ => 5)) ((0x23 : Nat) : Int) ∧
    read_byte 0x24 (write_byte_reg 0x24 ((38 : Nat) : Int) (fun _ => 5)) = 38 ∧
    read_byte 0x23 (write_byte_reg 0x24 ((38 : Nat) : Int) (fun _ => 5)) = read_byte 0x23 (fun _ => 5) :=
  C5_write_read_roundtrip (fun _ => 5) 0x24 38 0x23
    (by decide) (by decide) (by decide) (by decide)

/-- C6: set_auto_mode writes 32 to 0x23, 16 to 0x21 and 48 to 0x25,
whatever the prior register state, and leaves every other register
unchanged. -/
theorem C6_set_auto_mode (s : ECState) (off : Nat)
    (h23 : off ≠ 0x23) (h21 : off ≠ 0x21) (h25 : off ≠ 0x25) :
    set_auto_mode s 0x23 = 32 ∧ set_auto_mode s 0x21 = 16 ∧
    set_auto_mode s 0x25 = 48 ∧ set_auto_mode s off = s off := by
  unfold set_auto_mode write_ec_reg
  refine ⟨?_, ?_, ?_, ?_⟩
  · rw [Function.update_noteq (by decide), Function.update_noteq (by decide),
      Function.update_same]
    decide
  · rw [Function.update_noteq (by decide), Function.update_same]
    decide
  · rw [Function.update_same]
    decide
  · rw [Function.update_noteq h25, Function.update_noteq h21, Function.update_noteq h23]

/-- Witness for C6 at a fresh offset 0x26. -/
theorem C6_witness :
    set_auto_mode (fun _ => 7) 0x23 = 32 ∧ set_auto_mode (fun _ => 7) 0x21 = 16 ∧
    set_auto_mode (fun _ => 7) 0x25 = 48 ∧ set_auto_mode (fun _ => 7) 0x26 = 7 :=
  C6_set_auto_mode (fun _ => 7) 0x26 (by decide) (by decide) (by decide)

/-- C8: the menu variant multiplies the raw RPM bytes (0x37, 0x35, 0x28)
by the per-channel factors 267, 267 and 317, while the monitor variant
divides exactly one channel's raw word (SysFan, offset 0x28) by 22 and
shows the other two words (0x34, 0x36) unscaled. -/
theorem C8_rpm_display (data : List Nat) (s : ECState) :
    (monitor_all_fans data).fan1_rpm = 267 * get_byte data 0x37 ∧
    (monitor_all_fans data).fan2_rpm = 267 * get_byte data 0x35 ∧
    (monitor_all_fans data).sysfan_rpm = 317 * get_byte data 0x28 ∧
    (monitor_display s).1 = read_word 0x28 s / 22 ∧
    (monitor_display s).2.1 = read_word 0x34 s ∧
    (monitor_display s).2.2 = read_word 0x36 s := by
  refine ⟨?_, ?_, ?_, ?_, ?_, ?_⟩ <;>
    simp [monitor_all_fans, monitor_display, RPM_OFFSETS, Nat.mul_comm]

/-- C9: a successful write_ec stores exactly the byte `value mod 256` at
the target offset — a byte in [0,255] even for out-of-range or negative
values — and changes no other offset. -/
theorem C9_write_ec_masks (offset : Nat) (value : Int) (s : ECState) (off2 : Nat)
    (hne : off2 ≠ offset) :
    write_ec offset value (Device.present s)
      = (true, Device.present (write_ec_reg offset value s), []) ∧
    write_ec_reg offset value s offset = (value % 256).toNat ∧
    write_ec_reg offset value s offset < 256 ∧
    write_ec_reg offset value s off2 = s off2 := by
  refine ⟨rfl, ?_, ?_, ?_⟩
  · rw [write_ec_reg, Function.update_same]
  · rw [write_ec_reg, Function.update_same]; omega
  · rw [write_ec_reg, Function.update_noteq hne]

/-- Witness for C9: writing -1 at offset 0x24 stores the byte 255. -/
theorem C9_witness :
    write_ec 0x24 (-1) (Device.present (fun _ => 0))
      = (true, Device.present (write_ec_reg 0x24 (-1) (fun _ => 0)), []) ∧
    write_ec_reg 0x24 (-1) (fun _ => 0) 0x24 = ((-1 : Int) % 256).toNat ∧
    write_ec_reg 0x24 (-1) (fun _ => 0) 0x24 < 256 ∧
    write_ec_reg 0x24 (-1) (fun _ => 0) 0x23 = (fun _ => (0 : Nat)) 0x23 :=
  C9_write_ec_masks 0x24 (-1) (fun _ => 0) 0x23 (by decide)

/-- The w key dispatches to the clamped increment and writes the new
value to the selected fan's PWM register. -/
lemma mon_step_w (st : MonState) :
    mon_step 'w' st
      = { st with pwm := Function.update st.pwm st.selected (incPwm (st.pwm st.selected))
                , ec := write_byte_reg (FAN_PWM_MAP st.selected)
                    (incPwm (st.pwm st.selected)) st.ec } := by
  rw [mon_step, if_neg (by decide), if_pos rfl]

/-- The s key dispatches to the clamped decrement and writes the new
value to the selected fan's PWM register. -/
lemma mon_step_s (st : MonState) :
    mon_step 's' st
      = { st with pwm := Function.update st.pwm st.selected (decPwm (st.pwm st.selected))
                , ec := write_byte_reg (FAN_PWM_MAP st.selected)
                    (decPwm (st.pwm st.selected)) st.ec } := by
  rw [mon_step, if_neg (by decide), if_neg (by decide), if_pos rfl]

/-- C4: the w key applies the clamped increment `min (v+10) 255` and the
s key the clamped decrement `max (v-10) 0` to the selected channel, both
of which keep a value of [0,255] in [0,255]; iterating the increment
from 250 saturates at 255 and iterating the decrement from 5 saturates
at 0. -/
theorem C4_pwm_clamped (st : MonState) (v : Int) (n : Nat)
    (h0 : 0 ≤ v) (h255 : v ≤ 255) (hn : 1 ≤ n) :
    (mon_step 'w' st).pwm st.selected = incPwm (st.pwm st.selected) ∧
    (mon_step 's' st).pwm st.selected = decPwm (st.pwm st.selected) ∧
    (0 ≤ incPwm v ∧ incPwm v ≤ 255) ∧
    (0 ≤ decPwm v ∧ decPwm v ≤ 255) ∧
    incPwm^[n] 250 = 255 ∧ decPwm^[n] 5 = 0 := by
  obtain ⟨m, rfl⟩ : ∃ m, n = m + 1 := ⟨n - 1, by omega⟩
  refine ⟨?_, ?_, ?_, ?_, ?_, ?_⟩
  · rw [mon_step_w]; exact Function.update_same _ _ _
  · rw [mon_step_s]; exact Function.update_same _ _ _
  · unfold incPwm; omega
  · unfold decPwm; omega
  · rw [Function.iterate_succ_apply]
    have h250 : incPwm 250 = 255 := by decide
    rw [h250]
    exact Function.iterate_fixed (by decide) m
  · rw [Function.iterate_succ_apply]
    have h5 : decPwm 5 = 0 := by decide
    rw [h5]
    exact Function.iterate_fixed (by decide) m

/-- Witness for C4 at the freshly initialised session over an EC whose
bytes are all 250, with one iteration. -/
theorem C4_witness :
    (mon_step 'w' (mon_init (fun _ => 250))).pwm (mon_init (fun _ => 250)).selected
      = incPwm ((mon_init (fun _ => 250)).pwm (mon_init (fun _ => 250)).selected) ∧
    (mon_step 's' (mon_init (fun _ => 250))).pwm (mon_init (fun _ => 250)).selected
      = decPwm ((mon_init (fun _ => 250)).pwm (mon_init (fun _ => 250)).selected) ∧
    ((0 : Int) ≤ incPwm 250 ∧ incPwm 250 ≤ 255) ∧
    ((0 : Int) ≤ decPwm 250 ∧ decPwm 250 ≤ 255) ∧
    incPwm^[1] 250 = 255 ∧ decPwm^[1] 5 = 0 :=
  C4_pwm_clamped (mon_init (fun _ => 250)) 250 1 (by decide) (by decide) (by decide)

/-- C2: the failing run for the restore-on-exit claim.  Start with every
EC byte 100 (so PWM_VALUES[0] is captured as 100), press w once (PWM
becomes 110 and is written), then interrupt: the handler leaves register
0x07 at 110 — the last written value — not the captured 100 the claim
(and the script's own "restoring original PWM values" message) promise. -/
theorem C2_restore_bug :
    read_byte 0x07 (fun _ => 100) = 100 ∧
    (mon_init (fun _ => 100)).pwm 0 = 100 ∧
    restore_pwm (mon_run ['w'] (mon_init (fun _ => 100))) 0x07 = 110 := by
  refine ⟨rfl, rfl, ?_⟩
  decide

/-- C3: the claim fails at the concrete input offset 0x28 with the
device file unopenable: ec_fans_monitor.py's read_byte has no exception
handler, so the failure propagates to the caller instead of being caught
and converted to a sentinel; moreover gmk_fan.py's write_ec, which does
catch, prints no diagnostic. -/
theorem C3_counterexample :
    read_byte_dev 0x28 Device.absent = Except.error "FileNotFoundError" ∧
    write_ec 0x23 33 Device.absent = (false, Device.absent, []) :=
  ⟨rfl, rfl⟩

/-- C3 amended: in gmk_fan.py a failed open is caught — read_ec prints a
diagnostic and returns None, write_ec silently returns False — while in
ec_fans_monitor.py read_byte, read_word and write_byte have no handler
and the exception propagates past the operation. -/
theorem C3_amended (offset : Nat) (value : Int) :
    read_ec Device.absent = (none, ["Read failed"]) ∧
    write_ec offset value Device.absent = (false, Device.absent, []) ∧
    read_byte_dev offset Device.absent = Except.error "FileNotFoundError" ∧
    read_word_dev offset Device.absent = Except.error "FileNotFoundError" ∧
    write_byte_dev offset value Device.absent = Except.error "FileNotFoundError" :=
  ⟨rfl, rfl, rfl, rfl, rfl⟩

/-- A successful Python index lies in the list. -/
lemma pyIndex_mem {data : List Nat} {i : Int} {b : Nat}
    (h : pyIndex data i = some b) : b ∈ data := by
  simp only [pyIndex] at h
  split at h <;> split at h <;>
    first
      | (obtain ⟨hlt, rfl⟩ := List.getElem?_eq_some_iff.mp h
         exact List.getElem_mem hlt)
      | exact absurd h (by simp)

/-- A Python slice only contains elements of the list. -/
lemma pySlice_subset (data : List Nat) (start stop : Int) :
    pySlice data start stop ⊆ data := by
  unfold pySlice
  intro x hx
  exact List.drop_subset _ data (List.take_subset _ _ hx)

/-- C10: get_byte and get_rpm_little_endian are total on all byte
strings and all integer offsets; get_byte stays in [0,255] and returns
the sentinel 0 when the index is unavailable, get_rpm_little_endian
stays in [0,65535] and returns 0 when the two-byte slice at the offset
is unavailable. -/
theorem C10_get_total (data : List Nat) (i : Int) (hdata : ∀ b ∈ data, b < 256) :
    get_byte data i < 256 ∧
    (pyIndex data i = none → get_byte data i = 0) ∧
    get_rpm_little_endian data i < 65536 ∧
    ((pySlice data i (i + 2)).length ≠ 2 → get_rpm_little_endian data i = 0) := by
  refine ⟨?_, ?_, ?_, ?_⟩
  · rcases h : pyIndex data i with _ | b
    · simp [get_byte, h]
    · simpa [get_byte, h] using hdata b (pyIndex_mem h)
  · intro h
    simp [get_byte, h]
  · rcases hsl : pySlice data i (i + 2) with _ | ⟨b0, _ | ⟨b1, _ | ⟨b2, rest⟩⟩⟩ <;>
      simp only [get_rpm_little_endian, hsl]
    · omega
    · omega
    · have hb0 : b0 < 256 := hdata b0 (pySlice_subset data i (i + 2) (by rw [hsl]; simp))
      have hb1 : b1 < 256 := hdata b1 (pySlice_subset data i (i + 2) (by rw [hsl]; simp))
      omega
    · omega
  · intro h
    rcases hsl : pySlice data i (i + 2) with _ | ⟨b0, _ | ⟨b1, _ | ⟨b2, rest⟩⟩⟩ <;>
      simp only [get_rpm_little_endian, hsl]
    rw [hsl] at h
    simp at h

/-- Witness for C10 on the two-byte string [7, 9] at offset 0. -/
theorem C10_witness :
    get_byte [7, 9] 0 < 256 ∧
    (pyIndex [7, 9] 0 = none → get_byte [7, 9] 0 = 0) ∧
    get_rpm_little_endian [7, 9] 0 < 65536 ∧
    ((pySlice [7, 9] 0 ((0 : Int) + 2)).length ≠ 2 → get_rpm_little_endian [7, 9] 0 = 0) :=
  C10_get_total [7, 9] 0 (by decide)

/-- C7: the claim fails at the concrete unrecognized menu choice "7"
(with any percentage inputs): the loop body matches no branch, raises
nothing, prints no message and does not pause — the input is silently
ignored rather than "caught and reported". -/
theorem C7_counterexample :
    (menu_step "7" (some 50) (some 50) (some 50) (fun _ => 0)).1.printedError = false ∧
    (menu_step "7" (some 50) (some 50) (some 50) (fun _ => 0)).1.paused = false :=
  ⟨rfl, rfl⟩

/-- C7 amended: no input terminates the process except the quit choice;
a non-numeric percentage on branches 1–4 is caught by the top-level
handler, reported and followed by the 2-second pause; an unrecognized
menu choice is silently ignored — the loop resumes immediately with no
message, no pause and no register write. -/
theorem C7_amended (choice : String) (p1 p2 p3 : Option Int) (s : ECState) :
    (choice ≠ "q" → (menu_step choice p1 p2 p3 s).1.breaks = false) ∧
    ((choice = "1" ∨ choice = "2" ∨ choice = "3") → p1 = none →
      (menu_step choice p1 p2 p3 s).1 = menuError) ∧
    (choice = "4" → (p1 = none ∨ p2 = none ∨ p3 = none) →
      (menu_step choice p1 p2 p3 s).1 = menuError) ∧
    (choice ∉ (["q", "1", "2", "3", "4", "5", "6"] : List String) →
      menu_step choice p1 p2 p3 s = (menuOk, s)) := by
  refine ⟨?_, ?_, ?_, ?_⟩
  · intro hq
    unfold menu_step
    split_ifs with h1 h2 h3 h4 h5 h6 h7
    · exact absurd h1 hq
    · rcases p1 <;> rfl
    · rcases p1 <;> rfl
    · rcases p1 <;> rfl
    · rcases p1 <;> rcases p2 <;> rcases p3 <;> rfl
    · rfl
    · rfl
    · rfl
  · rintro (rfl | rfl | rfl) rfl <;> rfl
  · rintro rfl hnone
    rcases p1 with _ | a
    · rfl
    rcases p2 with _ | b
    · rfl
    rcases p3 with _ | c
    · rfl
    · simp at hnone
  · intro h
    simp only [List.mem_cons, List.not_mem_nil, or_false, not_or] at h
    obtain ⟨hq, h1, h2, h3, h4, h5, h6⟩ := h
    unfold menu_step
    rw [if_neg hq, if_neg h1, if_neg h2, if_neg h3, if_neg h4, if_neg h5, if_neg h6]

/-- Witness for C7 at choice "1" with a non-numeric percentage input. -/
theorem C7_witness :
    (("1" : String) ≠ "q" →
      (menu_step "1" none none none (fun _ => 0)).1.breaks = false) ∧
    ((("1" : String) = "1" ∨ ("1" : String) = "2" ∨ ("1" : String) = "3") →
      (none : Option Int) = none →
      (menu_step "1" none none none (fun _ => 0)).1 = menuError) ∧
    (("1" : String) = "4" →
      ((none : Option Int) = none ∨ (none : Option Int) = none ∨ (none : Option Int) = none) →
      (menu_step "1" none none none (fun _ => 0)).1 = menuError) ∧
    (("1" : String) ∉ (["q", "1", "2", "3", "4", "5", "6"] : List String) →
      menu_step "1" none none none (fun _ => 0) = (menuOk, fun _ => 0)) :=
  C7_amended "1" none none none (fun _ => 0)

/-- The running best of Python's min scan is one of the scanned
elements. -/
lemma foldl_closest_mem (f : Int → Int) (x : Int) (xs : List Int) :
    xs.foldl (fun best y => if f y < f best then y else best) x ∈ x :: xs := by
  induction xs generalizing x with
  | nil => simp
  | cons y ys ih =>
      rw [List.foldl_cons]
      rcases List.mem_cons.mp (ih (if f y < f x then y else x)) with h | h
      · rw [h]
        split_ifs <;> simp
      · simp [h]

/-- The bucket picked by minimum absolute difference is one of the five
table keys. -/
lemma specClosestBucket_mem (p : Int) :
    specClosestBucket p ∈ ([20, 40, 60, 80, 100] : List Int) := by
  have h := foldl_closest_mem (fun b => |b - p|) 20 [40, 60, 80, 100]
  simpa [specClosestBucket, pyMinBy] using h

/-- The Fan 1 register byte for the picked bucket is at most 38. -/
lemma fan1_bucket_value_le (p : Int) : fan1_bucket_value (specClosestBucket p) ≤ 38 := by
  have h := specClosestBucket_mem p
  simp only [List.mem_cons, List.not_mem_nil, or_false] at h
  rcases h with h | h | h | h | h <;> rw [h] <;> decide

/-- Fan 1's speed register after set_fan1_percentage holds the byte of
the bucket at minimal absolute difference from the target. -/
lemma set_fan1_at24 (p : Int) (s : ECState) :
    set_fan1_percentage p s 0x24 = fan1_bucket_value (specClosestBucket p) := by
  have h : set_fan1_percentage p s 0x24
      = ((fan1_bucket_value (specClosestBucket p) : Int) % 256).toNat := rfl
  have hle := fan1_bucket_value_le p
  rw [h]
  omega

/-- The spec-side closest bucket, written as an explicit threshold
chain: the smallest bucket at least p, capped at 100. -/
lemma specCeilBucket_eq (p : Int) :
    specCeilBucket p
      = if p ≤ 20 then 20 else if p ≤ 40 then 40 else if p ≤ 60 then 60
        else if p ≤ 80 then 80 else 100 := by
  unfold specCeilBucket
  by_cases h1 : p ≤ 20 <;> by_cases h2 : p ≤ 40 <;> by_cases h3 : p ≤ 60 <;>
    by_cases h4 : p ≤ 80 <;> by_cases h5 : p ≤ 100 <;>
    simp [List.filter_cons, decide_eq_true_eq, h1, h2, h3, h4, h5]

/-- The Fan 2 threshold chain picks exactly the byte of the smallest
bucket ≥ p (capped at 100). -/
lemma fan2_value_eq (p : Int) : fan2_value p = fan2_bucket_value (specCeilBucket p) := by
  rw [specCeilBucket_eq]
  unfold fan2_value fan2_bucket_value
  split_ifs <;> omega

/-- The Sysfan threshold chain picks exactly the byte of the smallest
bucket ≥ p (capped at 100). -/
lemma sysfan_value_eq (p : Int) : sysfan_value p = sysfan_bucket_value (specCeilBucket p) := by
  rw [specCeilBucket_eq]
  unfold sysfan_value sysfan_bucket_value
  split_ifs <;> omega

/-- The Fan 2 byte is at most 22; the Sysfan byte at most 54. -/
lemma fan_values_le (p : Int) : fan2_value p ≤ 22 ∧ sysfan_value p ≤ 54 := by
  unfold fan2_value sysfan_value
  constructor <;> split_ifs <;> decide

/-- C1: the claim fails at p = 45: set_fan2_percentage writes the byte
20 — the 60% bucket — to register 0x22, while the bucket minimizing
absolute difference from 45 is 40, whose Fan 2 byte is 19. -/
theorem C1_counterexample :
    set_fan2_percentage 45 (fun _ => 0) 0x22 = 20 ∧
    specClosestBucket 45 = 40 ∧
    fan2_bucket_value 40 = 19 := by
  refine ⟨rfl, by decide, rfl⟩

/-- C1 amended: set_fan1_percentage selects the bucket minimizing the
absolute difference (p = 45 selects 40) and writes its byte to 0x24
after enabling with 33 at 0x23; set_fan2_percentage and
set_sysfan_percentage instead select the smallest bucket ≥ p (capped at
100) and write its byte to 0x22 resp. 0x26 after enabling with 17 at
0x21 resp. 49 at 0x25. -/
theorem C1_amended (p : Int) (s : ECState) :
    set_fan1_percentage p s 0x24 = fan1_bucket_value (specClosestBucket p) ∧
    set_fan1_percentage p s 0x23 = 33 ∧
    set_fan2_percentage p s 0x22 = fan2_bucket_value (specCeilBucket p) ∧
    set_fan2_percentage p s 0x21 = 17 ∧
    set_sysfan_percentage p s 0x26 = sysfan_bucket_value (specCeilBucket p) ∧
    set_sysfan_percentage p s 0x25 = 49 ∧
    specClosestBucket 45 = 40 := by
  refine ⟨set_fan1_at24 p s, rfl, ?_, rfl, ?_, rfl, by decide⟩
  · have h : set_fan2_percentage p s 0x22 = ((fan2_value p : Int) % 256).toNat := rfl
    have hle := (fan_values_le p).1
    rw [h, ← fan2_value_eq p]
    omega
  · have h : set_sysfan_percentage p s 0x26 = ((sysfan_value p : Int) % 256).toNat := rfl
    have hle := (fan_values_le p).2
    rw [h, ← sysfan_value_eq p]
    omega
